import Mathlib

/-!
Verification of the email-eligibility and bounce-suppression core of
packages/backend/src/core/EmailService.ts.

The embedding models the three public operations of the service:

* checkEmailBounce (the bounce registry check-and-refresh),
* validateEmailForAccount (the composite eligibility verdict),
* sendEmail (the guarded dispatch).

External collaborators (the DynamoDB bounce table, the account directory
count, the deep-email-validator output, the SES transport) enter as explicit
inputs; every DynamoDB call the code issues is recorded in an explicit call
trace so that frame conditions (no update issued, zero store calls) can be
stated and proved.
-/

namespace EmailService

/-- The fixed sort-key value used for bounce records in the DynamoDB table
(the string literal Bounce_Info in checkEmailBounce). -/
def BOUNCE_CATEGORY : String := "Bounce_Info"

/-- The bounce table contents: each entry maps a (email, category) key to the
value of its ttl attribute (the suppressedUntil timestamp, epoch seconds).
Other item attributes play no role in the code under verification. -/
abbrev Store := List ((String × String) × Nat)

/-- Assoc-list lookup of the ttl attribute of the item keyed by
(email, category), the effect of the GetItemCommand. -/
def lookupStore : Store → String → String → Option Nat
  | [], _, _ => none
  | ((k, v) :: rest), e, c => if k = (e, c) then some v else lookupStore rest e c

/-- Set the ttl attribute of the item keyed by (email, category), the effect
of the UpdateItemCommand (SET #TL = :tl); DynamoDB update has upsert
semantics, creating the item when absent. -/
def updateStore : Store → String → String → Nat → Store
  | [], e, c, t => [((e, c), t)]
  | ((k, v) :: rest), e, c, t =>
      if k = (e, c) then (k, t) :: rest else (k, v) :: updateStore rest e c t

/-- One DynamoDB call issued by the service, as recorded in the call trace. -/
inductive StoreCall where
  | getItem (tableName email category : String)
  | updateItem (tableName email category : String) (ttl : Nat)
deriving DecidableEq, Repr

/-- The errors the service can surface to its caller. -/
inductive EmailError where
  /-- A DynamoDB send call failed (network/auth/throttling); the awaited
  rejection propagates out of checkEmailBounce uncaught. -/
  | storeUnavailable
  /-- The Error thrown by sendEmail when the recipient is on the bounce
  table; it carries the recipient address (the thrown message is
  Email address ++ to ++ is registered on bounce table). -/
  | suppressedRecipient (recipient : String)
  /-- The transport (SES) error, logged and re-thrown unchanged. -/
  | transportFailure (message : String)
deriving DecidableEq, Repr

/-- Decidable equality for Except results, so that concrete outcomes can be
checked by evaluation. -/
instance exceptDecEq {ε α : Type} [DecidableEq ε] [DecidableEq α] :
    DecidableEq (Except ε α) := fun a b =>
  match a, b with
  | .error e, .error f =>
    if h : e = f then isTrue (h ▸ rfl)
    else isFalse (fun hh => h (Except.error.inj hh))
  | .ok x, .ok y =>
    if h : x = y then isTrue (h ▸ rfl)
    else isFalse (fun hh => h (Except.ok.inj hh))
  | .error _, .ok _ => isFalse (fun hh => Except.noConfusion hh)
  | .ok _, .error _ => isFalse (fun hh => Except.noConfusion hh)

/-- The part of the runtime environment that checkEmailBounce reads:
the BOUNCE_TABLE_NAME environment variable, the bounce table contents,
whether the DynamoDB endpoint is reachable for the duration of the call,
and the clock (Date.now, milliseconds). -/
structure Env where
  bounceTableName : Option String
  store : Store
  storeAvailable : Bool
  nowMs : Nat
deriving DecidableEq, Repr

/-- The observable outcome of one checkEmailBounce call: the returned value
(or the propagated store error), the DynamoDB calls issued, and the table
contents afterwards. -/
structure BounceCheckOutcome where
  result : Except EmailError Bool
  calls : List StoreCall
  store : Store
deriving DecidableEq, Repr

/-- Embedding of checkEmailBounce. The code reads
process.env.BOUNCE_TABLE_NAME (a falsy value, undefined or the empty
string, disables the check), issues a GetItemCommand for key
(email, Bounce_Info), returns false when no item exists, and otherwise
issues an UpdateItemCommand setting ttl to
Math.floor(Date.now() / 1000) + 86400 * 7 before returning true.
An unreachable store makes the awaited send reject, which propagates. -/
def checkEmailBounce (env : Env) (emailAddress : String) : BounceCheckOutcome :=
  match env.bounceTableName with
  | none => { result := .ok false, calls := [], store := env.store }
  | some tableName =>
    if tableName = "" then
      { result := .ok false, calls := [], store := env.store }
    else if env.storeAvailable = false then
      { result := .error .storeUnavailable,
        calls := [.getItem tableName emailAddress BOUNCE_CATEGORY],
        store := env.store }
    else
      match lookupStore env.store emailAddress BOUNCE_CATEGORY with
      | none =>
        { result := .ok false,
          calls := [.getItem tableName emailAddress BOUNCE_CATEGORY],
          store := env.store }
      | some _ =>
        let endTime := env.nowMs / 1000 + 86400 * 7
        { result := .ok true,
          calls := [.getItem tableName emailAddress BOUNCE_CATEGORY,
                    .updateItem tableName emailAddress BOUNCE_CATEGORY endTime],
          store := updateStore env.store emailAddress BOUNCE_CATEGORY endTime }

/-- The reason component of an eligibility verdict. -/
inductive Reason where
  | used | format | disposable | mx | smtp
deriving DecidableEq, Repr

/-- The eligibility verdict returned by validateEmailForAccount. -/
structure Verdict where
  available : Bool
  reason : Option Reason
deriving DecidableEq, Repr

/-- The shape of the deep-email-validator result the code consumes:
a valid flag and an optional reason string (regex, disposable, mx, smtp
are the ones the code inspects). -/
structure ValidationResult where
  valid : Bool
  reason : Option String
deriving DecidableEq, Repr

/-- The verdict construction of validateEmailForAccount: the availability
conjunction exist === 0 AND validated.valid AND NOT checkBounce, and the
ternary chain selecting the reason. -/
def computeVerdict (exist : Nat) (checkBounce : Bool)
    (validated : ValidationResult) : Verdict :=
  let available := exist == 0 && validated.valid && !checkBounce
  { available := available,
    reason :=
      if available then none
      else if exist ≠ 0 then some .used
      else if checkBounce then some .smtp
      else if validated.reason = some "regex" then some .format
      else if validated.reason = some "disposable" then some .disposable
      else if validated.reason = some "mx" then some .mx
      else if validated.reason = some "smtp" then some .smtp
      else none }

/-- The observable outcome of one validateEmailForAccount call. -/
structure ValidateOutcome where
  result : Except EmailError Verdict
  storeCalls : List StoreCall
  store : Store
deriving DecidableEq, Repr

/-- Embedding of validateEmailForAccount. Its collaborator inputs are
explicit: enableActiveEmailValidation is the meta feature flag, exist is
the userProfilesRepository.countBy result (verified accounts holding this
address), validatorOutput is what validateEmail would return when invoked.
The code always awaits checkEmailBounce (so a store error propagates and
a bounce hit refreshes the window), substitutes valid:true reason:null for
the validator when the flag is off, and builds the verdict. -/
def validateEmailForAccount (env : Env) (enableActiveEmailValidation : Bool)
    (exist : Nat) (validatorOutput : ValidationResult) (emailAddress : String) :
    ValidateOutcome :=
  let bc := checkEmailBounce env emailAddress
  match bc.result with
  | .error e => { result := .error e, storeCalls := bc.calls, store := bc.store }
  | .ok checkBounce =>
    let validated := if enableActiveEmailValidation then validatorOutput
      else { valid := true, reason := none }
    { result := .ok (computeVerdict exist checkBounce validated),
      storeCalls := bc.calls,
      store := bc.store }

/-- The five-valued format result of the specification (valid,
invalid-format, disposable, invalid-mx, invalid-smtp): the contract of the
FormatValidator collaborator in the spec. -/
inductive FormatResult where
  | valid | invalidFormat | disposable | invalidMx | invalidSmtp
deriving DecidableEq, Repr

/-- How each spec-level format result is delivered to the code by the
validator library: a failure carries the reason string of the failing check
(regex, disposable, mx, smtp). -/
def FormatResult.toValidationResult : FormatResult → ValidationResult
  | .valid => { valid := true, reason := none }
  | .invalidFormat => { valid := false, reason := some "regex" }
  | .disposable => { valid := false, reason := some "disposable" }
  | .invalidMx => { valid := false, reason := some "mx" }
  | .invalidSmtp => { valid := false, reason := some "smtp" }

/-- Modelled from the spec: the decision rule
available = (alreadyVerifiedCount == 0) AND formatResult == valid AND NOT
isSuppressed, and the reason precedence list of spec section 4.2 (used,
then smtp for suppression, then format, disposable, mx, smtp in that
order, first match winning). Written from the words of the spec, to be
compared with computeVerdict. -/
def specVerdict (alreadyVerifiedCount : Nat) (isSuppressed : Bool)
    (formatResult : FormatResult) : Verdict :=
  let available :=
    alreadyVerifiedCount == 0 && formatResult == .valid && !isSuppressed
  { available := available,
    reason :=
      if available then none
      else if alreadyVerifiedCount ≠ 0 then some .used
      else if isSuppressed then some .smtp
      else if formatResult = .invalidFormat then some .format
      else if formatResult = .disposable then some .disposable
      else if formatResult = .invalidMx then some .mx
      else if formatResult = .invalidSmtp then some .smtp
      else none }

/-- The SendEmailCommand payload handed to the SES transport: source
address, destination, subject, and the two body variants. -/
structure SESMessage where
  source : String
  toAddress : String
  subject : String
  textBody : String
  htmlBody : String
deriving DecidableEq, Repr

/-- The HTML message body built inline by sendEmail, with subject, header
image, caller-supplied fragment, email-setting link and site link
interpolated. The static markup and stylesheet are abbreviated to the
interpolation-relevant skeleton; no claim under verification depends on the
literal markup, only on whether this rendering happens and what reaches the
transport. -/
def renderEmailHtml (subject headerImg html emailSettingUrl url host : String) :
    String :=
  "<!doctype html><html><head><title>" ++ subject ++
    "</title></head><body><main><header><img src=" ++ headerImg ++
    "/></header><article><h1>" ++ subject ++ "</h1><div>" ++ html ++
    "</div></article><footer><a href=" ++ emailSettingUrl ++
    ">Email setting</a></footer></main><nav><a href=" ++ url ++ ">" ++ host ++
    "</a></nav></body></html>"

/-- The collaborator inputs of sendEmail: the bounce-check environment, the
instance metadata (sender address and branding images), the config url and
host, and what the SES send would produce when invoked (its MessageId, or a
rejection). -/
structure SendEnv where
  env : Env
  metaEmail : String
  metaLogoImageUrl : Option String
  metaIconUrl : Option String
  configUrl : String
  configHost : String
  transport : Except String String
deriving DecidableEq, Repr

/-- The observable outcome of one sendEmail call: the resolved value of the
promise (the TypeScript function is typed Promise of void, so a successful
resolution carries no value, modelled as none), the DynamoDB calls issued,
the table contents afterwards, the SES calls issued, whether the HTML
template was rendered, and the log lines emitted after the bounce check. -/
structure SendOutcome where
  result : Except EmailError (Option String)
  storeCalls : List StoreCall
  store : Store
  transportCalls : List SESMessage
  templateRendered : Bool
  logs : List String
deriving DecidableEq, Repr

/-- Embedding of sendEmail. The code fetches meta, computes the icon and
email-setting urls, awaits checkEmailBounce(to) (a store error propagates;
a hit logs and throws), then inside the try block renders the HTML body,
issues the SendEmailCommand, logs the MessageId on success, and logs and
re-throws the transport error on failure. The function body has no return
statement: the promise resolves with undefined. -/
def sendEmail (senv : SendEnv) (toAddr subject html text : String) :
    SendOutcome :=
  let iconUrl := senv.configUrl ++ "/static-assets/mi-white.png"
  let emailSettingUrl := senv.configUrl ++ "/settings/email"
  let bc := checkEmailBounce senv.env toAddr
  match bc.result with
  | .error e =>
    { result := .error e, storeCalls := bc.calls, store := bc.store,
      transportCalls := [], templateRendered := false, logs := [] }
  | .ok true =>
    { result := .error (.suppressedRecipient toAddr),
      storeCalls := bc.calls, store := bc.store,
      transportCalls := [], templateRendered := false,
      logs := ["Email address " ++ toAddr ++
               " is registered on bounce table."] }
  | .ok false =>
    let headerImg :=
      senv.metaLogoImageUrl.getD (senv.metaIconUrl.getD iconUrl)
    let htmlData :=
      renderEmailHtml subject headerImg html emailSettingUrl
        senv.configUrl senv.configHost
    let msg : SESMessage :=
      { source := senv.metaEmail, toAddress := toAddr, subject := subject,
        textBody := text, htmlBody := htmlData }
    match senv.transport with
    | .error err =>
      { result := .error (.transportFailure err),
        storeCalls := bc.calls, store := bc.store,
        transportCalls := [msg], templateRendered := true,
        logs := [err] }
    | .ok messageId =>
      { result := .ok none,
        storeCalls := bc.calls, store := bc.store,
        transportCalls := [msg], templateRendered := true,
        logs := ["Message sent: " ++ messageId] }

/-! Concrete environments used to witness the theorems below. -/

/-- Environment with no BOUNCE_TABLE_NAME configured. -/
def envDisabledEx : Env :=
  { bounceTableName := none, store := [], storeAvailable := true,
    nowMs := 123456789 }

/-- Configured environment whose table holds no record. -/
def envCleanEx : Env :=
  { bounceTableName := some "bounce-table", store := [], storeAvailable := true,
    nowMs := 123456789 }

/-- Configured environment whose table holds a bounce record for
bad at example.com with a prior ttl of 777. -/
def envHitEx : Env :=
  { bounceTableName := some "bounce-table",
    store := [(("bad@example.com", BOUNCE_CATEGORY), 777)],
    storeAvailable := true, nowMs := 123456789 }

/-- Configured environment whose DynamoDB endpoint is unreachable. -/
def envDownEx : Env :=
  { bounceTableName := some "bounce-table",
    store := [(("bad@example.com", BOUNCE_CATEGORY), 777)],
    storeAvailable := false, nowMs := 123456789 }

/-- Send environment over the clean store, with a transport that would
succeed with MessageId mid-123. -/
def sendEnvCleanEx : SendEnv :=
  { env := envCleanEx, metaEmail := "noreply@example.com",
    metaLogoImageUrl := none, metaIconUrl := none,
    configUrl := "https://mi.example.com", configHost := "mi.example.com",
    transport := .ok "mid-123" }

/-- Send environment over the store holding a bounce record. -/
def sendEnvHitEx : SendEnv :=
  { env := envHitEx, metaEmail := "noreply@example.com",
    metaLogoImageUrl := none, metaIconUrl := none,
    configUrl := "https://mi.example.com", configHost := "mi.example.com",
    transport := .ok "mid-123" }

/-! Closed forms of checkEmailBounce on each of its four paths. -/

/-- With no table name configured, checkEmailBounce short-circuits. -/
theorem checkEmailBounce_eq_disabled (env : Env) (a : String)
    (h : env.bounceTableName = none) :
    checkEmailBounce env a =
      { result := .ok false, calls := [], store := env.store } := by
  unfold checkEmailBounce
  rw [h]

/-- With the store configured but unreachable, the GetItem rejection
propagates. -/
theorem checkEmailBounce_eq_down (env : Env) (a t : String)
    (h1 : env.bounceTableName = some t) (h2 : t ≠ "")
    (h3 : env.storeAvailable = false) :
    checkEmailBounce env a =
      { result := .error .storeUnavailable,
        calls := [.getItem t a BOUNCE_CATEGORY],
        store := env.store } := by
  unfold checkEmailBounce
  rw [h1]
  simp [h2, h3]

/-- With the store configured and reachable but holding no record for the
address, the check returns false after the single GetItem. -/
theorem checkEmailBounce_eq_miss (env : Env) (a t : String)
    (h1 : env.bounceTableName = some t) (h2 : t ≠ "")
    (h3 : env.storeAvailable = true)
    (h4 : lookupStore env.store a BOUNCE_CATEGORY = none) :
    checkEmailBounce env a =
      { result := .ok false,
        calls := [.getItem t a BOUNCE_CATEGORY],
        store := env.store } := by
  unfold checkEmailBounce
  rw [h1]
  simp [h2, h3, h4]

/-- With the store configured and reachable and holding a record for the
address, the check updates the ttl and returns true. -/
theorem checkEmailBounce_eq_hit (env : Env) (a t : String) (r : Nat)
    (h1 : env.bounceTableName = some t) (h2 : t ≠ "")
    (h3 : env.storeAvailable = true)
    (h4 : lookupStore env.store a BOUNCE_CATEGORY = some r) :
    checkEmailBounce env a =
      { result := .ok true,
        calls := [.getItem t a BOUNCE_CATEGORY,
                  .updateItem t a BOUNCE_CATEGORY (env.nowMs / 1000 + 86400 * 7)],
        store := updateStore env.store a BOUNCE_CATEGORY
                   (env.nowMs / 1000 + 86400 * 7) } := by
  unfold checkEmailBounce
  rw [h1]
  simp [h2, h3, h4]

/-- Reading back the key just written by updateStore yields the new value. -/
theorem lookupStore_updateStore (s : Store) (e c : String) (t : Nat) :
    lookupStore (updateStore s e c t) e c = some t := by
  induction s with
  | nil => simp [updateStore, lookupStore]
  | cons hd tl ih =>
    rcases hd with ⟨k, val⟩
    by_cases hk : k = (e, c)
    · simp [updateStore, lookupStore, hk]
    · simp [updateStore, lookupStore, hk, ih]

/-- The ternary chain of the code computes exactly the verdict prescribed by
the spec, over the five-valued format-result contract. -/
theorem computeVerdict_eq_specVerdict (exist : Nat) (suppr : Bool)
    (fr : FormatResult) :
    computeVerdict exist suppr fr.toValidationResult =
      specVerdict exist suppr fr := by
  cases he : (exist == 0) with
  | true =>
    have h0 : exist = 0 := by simpa using he
    subst h0
    cases suppr <;> cases fr <;> decide
  | false =>
    have h0 : exist ≠ 0 := by simpa using he
    cases suppr <;> cases fr <;>
      simp [computeVerdict, specVerdict, FormatResult.toValidationResult,
        he, h0]

/-- In a spec verdict the reason is none exactly when available, and an
unavailable verdict always carries one of the five reasons. -/
theorem specVerdict_reason_invariant (exist : Nat) (suppr : Bool)
    (fr : FormatResult) :
    ((specVerdict exist suppr fr).reason = none ↔
      (specVerdict exist suppr fr).available = true) ∧
    ((specVerdict exist suppr fr).available = false →
      (specVerdict exist suppr fr).reason = some .used ∨
      (specVerdict exist suppr fr).reason = some .format ∨
      (specVerdict exist suppr fr).reason = some .disposable ∨
      (specVerdict exist suppr fr).reason = some .mx ∨
      (specVerdict exist suppr fr).reason = some .smtp) := by
  cases he : (exist == 0) with
  | true =>
    have h0 : exist = 0 := by simpa using he
    subst h0
    cases suppr <;> cases fr <;> decide
  | false =>
    have h0 : exist ≠ 0 := by simpa using he
    cases suppr <;> cases fr <;> simp [specVerdict, he, h0]

/-- Closed form of validateEmailForAccount once the bounce check has
resolved: the verdict is computed from the count, the suppression flag and
the (possibly disabled) validator output, and the store effects are those
of the bounce check. -/
theorem validateEmailForAccount_eq_ok (env : Env) (flag : Bool) (exist : Nat)
    (vo : ValidationResult) (a : String) (suppr : Bool)
    (h : (checkEmailBounce env a).result = .ok suppr) :
    validateEmailForAccount env flag exist vo a =
      { result := .ok (computeVerdict exist suppr
          (if flag then vo else { valid := true, reason := none })),
        storeCalls := (checkEmailBounce env a).calls,
        store := (checkEmailBounce env a).store } := by
  simp only [validateEmailForAccount, h]

/-- Closed form of validateEmailForAccount when the bounce check errors:
the error propagates. -/
theorem validateEmailForAccount_eq_error (env : Env) (flag : Bool)
    (exist : Nat) (vo : ValidationResult) (a : String) (e : EmailError)
    (h : (checkEmailBounce env a).result = .error e) :
    validateEmailForAccount env flag exist vo a =
      { result := .error e,
        storeCalls := (checkEmailBounce env a).calls,
        store := (checkEmailBounce env a).store } := by
  simp only [validateEmailForAccount, h]

/-- C1: For every candidate address and every combination of the three
gathered inputs (alreadyVerifiedCount, the suppression answer of the bounce
check, and the five-valued format result, the latter replaced by valid when
active validation is disabled), validateEmailForAccount returns exactly the
verdict of the spec decision rule available = (alreadyVerifiedCount == 0)
AND formatResult == valid AND NOT isSuppressed, with the reason chosen by
the precedence used, smtp (suppressed), format, disposable, mx, smtp
(validator), first match winning, as encoded by specVerdict. -/
theorem validateEmailForAccount_decision_and_precedence
    (env : Env) (flag : Bool) (exist : Nat) (fr : FormatResult) (a : String)
    (suppr : Bool)
    (h : (checkEmailBounce env a).result = .ok suppr) :
    (validateEmailForAccount env flag exist fr.toValidationResult a).result
      = .ok (specVerdict exist suppr (if flag then fr else .valid)) := by
  rw [validateEmailForAccount_eq_ok env flag exist fr.toValidationResult a
    suppr h]
  cases flag with
  | false =>
    simpa [FormatResult.toValidationResult] using
      congrArg (Except.ok : Verdict → Except EmailError Verdict)
        (computeVerdict_eq_specVerdict exist suppr .valid)
  | true =>
    simpa using
      congrArg (Except.ok : Verdict → Except EmailError Verdict)
        (computeVerdict_eq_specVerdict exist suppr fr)

/-- Witness for C1 at a concrete bounced address with a nonzero verified
count and a disposable format result: the verdict is unavailable with
reason used. -/
theorem validateEmailForAccount_decision_and_precedence_witness :
    (checkEmailBounce envHitEx "bad@example.com").result = .ok true ∧
    (validateEmailForAccount envHitEx true 1
        FormatResult.disposable.toValidationResult "bad@example.com").result
      = .ok (specVerdict 1 true
          (if true then FormatResult.disposable else .valid)) :=
  ⟨by decide,
   validateEmailForAccount_decision_and_precedence envHitEx true 1
     .disposable "bad@example.com" true (by decide)⟩

/-- C7: every verdict validateEmailForAccount returns has reason none
exactly when available is true, and every unavailable verdict carries one
of the five reasons used, format, disposable, mx, smtp: the final
otherwise-none branch of the ternary chain is unreachable when available
is false. -/
theorem validateEmailForAccount_reason_none_iff_available
    (env : Env) (flag : Bool) (exist : Nat) (fr : FormatResult) (a : String)
    (v : Verdict)
    (h : (validateEmailForAccount env flag exist fr.toValidationResult
        a).result = .ok v) :
    (v.reason = none ↔ v.available = true) ∧
    (v.available = false →
      v.reason = some .used ∨ v.reason = some .format ∨
      v.reason = some .disposable ∨ v.reason = some .mx ∨
      v.reason = some .smtp) := by
  cases hc : (checkEmailBounce env a).result with
  | error e =>
    rw [validateEmailForAccount_eq_error env flag exist _ a e hc] at h
    simp at h
  | ok suppr =>
    rw [validateEmailForAccount_eq_ok env flag exist _ a suppr hc] at h
    have hv : v = computeVerdict exist suppr
        (if flag then fr.toValidationResult
         else { valid := true, reason := none }) := by
      simpa using h.symm
    have hcv : computeVerdict exist suppr
        (if flag then fr.toValidationResult
         else { valid := true, reason := none })
        = specVerdict exist suppr (if flag then fr else .valid) := by
      cases flag with
      | false =>
        simpa [FormatResult.toValidationResult] using
          computeVerdict_eq_specVerdict exist suppr .valid
      | true => simpa using computeVerdict_eq_specVerdict exist suppr fr
    rw [hv, hcv]
    exact specVerdict_reason_invariant exist suppr (if flag then fr else .valid)

/-- Witness for C7 at a concrete clean address with all three inputs clear:
the verdict is available with reason none. -/
theorem validateEmailForAccount_reason_none_iff_available_witness :
    ((validateEmailForAccount envCleanEx true 0
        FormatResult.valid.toValidationResult "ok@example.com").result
      = .ok { available := true, reason := none }) ∧
    ((({ available := true, reason := none } : Verdict).reason = none ↔
      ({ available := true, reason := none } : Verdict).available = true) ∧
    (({ available := true, reason := none } : Verdict).available = false →
      ({ available := true, reason := none } : Verdict).reason = some .used ∨
      ({ available := true, reason := none } : Verdict).reason = some .format ∨
      ({ available := true, reason := none } : Verdict).reason
        = some .disposable ∨
      ({ available := true, reason := none } : Verdict).reason = some .mx ∨
      ({ available := true, reason := none } : Verdict).reason
        = some .smtp)) :=
  ⟨by decide,
   validateEmailForAccount_reason_none_iff_available envCleanEx true 0
     .valid "ok@example.com" { available := true, reason := none }
     (by decide)⟩

/-- C10: validateEmailForAccount runs the bounce check unconditionally, so
evaluating any address that holds a bounce record issues the refreshing
update and leaves the stored ttl at now + 604800, for every verified
count (including nonzero, where the verdict reason is used) and every
validator output. -/
theorem validateEmailForAccount_unconditional_refresh
    (env : Env) (flag : Bool) (exist : Nat) (vo : ValidationResult)
    (a t : String) (r : Nat)
    (h1 : env.bounceTableName = some t) (h2 : t ≠ "")
    (h3 : env.storeAvailable = true)
    (h4 : lookupStore env.store a BOUNCE_CATEGORY = some r) :
    (validateEmailForAccount env flag exist vo a).storeCalls =
      [.getItem t a BOUNCE_CATEGORY,
       .updateItem t a BOUNCE_CATEGORY (env.nowMs / 1000 + 604800)] ∧
    lookupStore (validateEmailForAccount env flag exist vo a).store a
        BOUNCE_CATEGORY = some (env.nowMs / 1000 + 604800) := by
  have hcb := checkEmailBounce_eq_hit env a t r h1 h2 h3 h4
  have hres : (checkEmailBounce env a).result = .ok true := by rw [hcb]
  rw [validateEmailForAccount_eq_ok env flag exist vo a true hres, hcb]
  constructor
  · norm_num
  · have h7 : (86400 * 7 : Nat) = 604800 := by norm_num
    simpa [h7] using
      lookupStore_updateStore env.store a BOUNCE_CATEGORY
        (env.nowMs / 1000 + 86400 * 7)

/-- Witness for C10 at the concrete bounced address, with a verified count
of 1 (verdict reason used) and a trivially valid validator output. -/
theorem validateEmailForAccount_unconditional_refresh_witness :
    envHitEx.bounceTableName = some "bounce-table" ∧
    "bounce-table" ≠ "" ∧
    envHitEx.storeAvailable = true ∧
    lookupStore envHitEx.store "bad@example.com" BOUNCE_CATEGORY
      = some 777 ∧
    ((validateEmailForAccount envHitEx true 1
        { valid := true, reason := none } "bad@example.com").storeCalls =
      [.getItem "bounce-table" "bad@example.com" BOUNCE_CATEGORY,
       .updateItem "bounce-table" "bad@example.com" BOUNCE_CATEGORY
         (envHitEx.nowMs / 1000 + 604800)] ∧
    lookupStore (validateEmailForAccount envHitEx true 1
        { valid := true, reason := none } "bad@example.com").store
        "bad@example.com" BOUNCE_CATEGORY
      = some (envHitEx.nowMs / 1000 + 604800)) :=
  ⟨rfl, by decide, rfl, by decide,
   validateEmailForAccount_unconditional_refresh envHitEx true 1
     { valid := true, reason := none } "bad@example.com" "bounce-table" 777
     rfl (by decide) rfl (by decide)⟩

/-- C2: for every address holding a bounce record in the configured,
reachable store, checkEmailBounce returns true and issues exactly one
update call, setting the ttl to now + 604800 seconds anchored at the
moment of the check, regardless of the prior ttl value r. -/
theorem checkEmailBounce_hit_refreshes (env : Env) (a t : String) (r : Nat)
    (h1 : env.bounceTableName = some t) (h2 : t ≠ "")
    (h3 : env.storeAvailable = true)
    (h4 : lookupStore env.store a BOUNCE_CATEGORY = some r) :
    (checkEmailBounce env a).result = .ok true ∧
    (checkEmailBounce env a).calls =
      [.getItem t a BOUNCE_CATEGORY,
       .updateItem t a BOUNCE_CATEGORY (env.nowMs / 1000 + 604800)] := by
  rw [checkEmailBounce_eq_hit env a t r h1 h2 h3 h4]
  refine ⟨rfl, ?_⟩
  norm_num

/-- Witness for C2 at the concrete bounced address with prior ttl 777. -/
theorem checkEmailBounce_hit_refreshes_witness :
    envHitEx.bounceTableName = some "bounce-table" ∧
    "bounce-table" ≠ "" ∧
    envHitEx.storeAvailable = true ∧
    lookupStore envHitEx.store "bad@example.com" BOUNCE_CATEGORY
      = some 777 ∧
    ((checkEmailBounce envHitEx "bad@example.com").result = .ok true ∧
    (checkEmailBounce envHitEx "bad@example.com").calls =
      [.getItem "bounce-table" "bad@example.com" BOUNCE_CATEGORY,
       .updateItem "bounce-table" "bad@example.com" BOUNCE_CATEGORY
         (envHitEx.nowMs / 1000 + 604800)]) :=
  ⟨rfl, by decide, rfl, by decide,
   checkEmailBounce_hit_refreshes envHitEx "bad@example.com" "bounce-table"
     777 rfl (by decide) rfl (by decide)⟩

/-- C3: for every address with no bounce record in the configured,
reachable store, checkEmailBounce returns false with only the lookup call
and an unchanged table, and any send to that clean address leaves the
bounce registry state unchanged. -/
theorem checkEmailBounce_miss_no_mutation (env : Env) (a t : String)
    (h1 : env.bounceTableName = some t) (h2 : t ≠ "")
    (h3 : env.storeAvailable = true)
    (h4 : lookupStore env.store a BOUNCE_CATEGORY = none) :
    (checkEmailBounce env a).result = .ok false ∧
    (checkEmailBounce env a).calls = [.getItem t a BOUNCE_CATEGORY] ∧
    (checkEmailBounce env a).store = env.store ∧
    ∀ senv : SendEnv, ∀ subject html text : String, senv.env = env →
      (sendEmail senv a subject html text).store = env.store := by
  have hcb := checkEmailBounce_eq_miss env a t h1 h2 h3 h4
  refine ⟨by rw [hcb], by rw [hcb], by rw [hcb], ?_⟩
  intro senv subject html text he
  subst he
  simp only [sendEmail, hcb]
  rcases htr : senv.transport with e | m <;> simp [htr]

/-- Witness for C3 at a concrete clean address over the clean send
environment. -/
theorem checkEmailBounce_miss_no_mutation_witness :
    envCleanEx.bounceTableName = some "bounce-table" ∧
    "bounce-table" ≠ "" ∧
    envCleanEx.storeAvailable = true ∧
    lookupStore envCleanEx.store "ok@example.com" BOUNCE_CATEGORY = none ∧
    ((checkEmailBounce envCleanEx "ok@example.com").result = .ok false ∧
    (checkEmailBounce envCleanEx "ok@example.com").calls =
      [.getItem "bounce-table" "ok@example.com" BOUNCE_CATEGORY] ∧
    (checkEmailBounce envCleanEx "ok@example.com").store
      = envCleanEx.store ∧
    ∀ senv : SendEnv, ∀ subject html text : String,
      senv.env = envCleanEx →
      (sendEmail senv "ok@example.com" subject html text).store
        = envCleanEx.store) :=
  ⟨rfl, by decide, rfl, by decide,
   checkEmailBounce_miss_no_mutation envCleanEx "ok@example.com"
     "bounce-table" rfl (by decide) rfl (by decide)⟩

/-- C4: with the store configured but the lookup call erroring,
checkEmailBounce surfaces the store error to its caller and in particular
does not return false. -/
theorem checkEmailBounce_store_error_propagates (env : Env) (a t : String)
    (h1 : env.bounceTableName = some t) (h2 : t ≠ "")
    (h3 : env.storeAvailable = false) :
    (checkEmailBounce env a).result = .error .storeUnavailable ∧
    (checkEmailBounce env a).result ≠ .ok false := by
  rw [checkEmailBounce_eq_down env a t h1 h2 h3]
  exact ⟨rfl, by simp⟩

/-- Witness for C4 over the unreachable-store environment. -/
theorem checkEmailBounce_store_error_propagates_witness :
    envDownEx.bounceTableName = some "bounce-table" ∧
    "bounce-table" ≠ "" ∧
    envDownEx.storeAvailable = false ∧
    ((checkEmailBounce envDownEx "bad@example.com").result
      = .error .storeUnavailable ∧
    (checkEmailBounce envDownEx "bad@example.com").result ≠ .ok false) :=
  ⟨rfl, by decide, rfl,
   checkEmailBounce_store_error_propagates envDownEx "bad@example.com"
     "bounce-table" rfl (by decide) rfl⟩

/-- C5: for every suppressed recipient, sendEmail fails with the
suppressed-recipient error, issues no transport call, and never renders
the message template. -/
theorem sendEmail_suppressed_blocks (senv : SendEnv)
    (a subject html text : String)
    (h : (checkEmailBounce senv.env a).result = .ok true) :
    (sendEmail senv a subject html text).result
      = .error (.suppressedRecipient a) ∧
    (sendEmail senv a subject html text).transportCalls = [] ∧
    (sendEmail senv a subject html text).templateRendered = false := by
  simp [sendEmail, h]

/-- Witness for C5 at the concrete bounced address. -/
theorem sendEmail_suppressed_blocks_witness :
    (checkEmailBounce sendEnvHitEx.env "bad@example.com").result
      = .ok true ∧
    ((sendEmail sendEnvHitEx "bad@example.com" "Hello" "<p>hi</p>"
        "hi").result = .error (.suppressedRecipient "bad@example.com") ∧
    (sendEmail sendEnvHitEx "bad@example.com" "Hello" "<p>hi</p>"
        "hi").transportCalls = [] ∧
    (sendEmail sendEnvHitEx "bad@example.com" "Hello" "<p>hi</p>"
        "hi").templateRendered = false) :=
  ⟨by decide,
   sendEmail_suppressed_blocks sendEnvHitEx "bad@example.com" "Hello"
     "<p>hi</p>" "hi" (by decide)⟩

/-- C6: with no bounce table name configured, checkEmailBounce returns
false for every address and issues zero store calls. -/
theorem checkEmailBounce_disabled_no_calls (env : Env) (a : String)
    (h : env.bounceTableName = none) :
    (checkEmailBounce env a).result = .ok false ∧
    (checkEmailBounce env a).calls = [] := by
  rw [checkEmailBounce_eq_disabled env a h]
  exact ⟨rfl, rfl⟩

/-- Witness for C6 over the unconfigured environment. -/
theorem checkEmailBounce_disabled_no_calls_witness :
    envDisabledEx.bounceTableName = none ∧
    ((checkEmailBounce envDisabledEx "anyone@example.com").result
      = .ok false ∧
    (checkEmailBounce envDisabledEx "anyone@example.com").calls = []) :=
  ⟨rfl, checkEmailBounce_disabled_no_calls envDisabledEx
    "anyone@example.com" rfl⟩

/-- C8 counterexample: at a concrete clean address with the transport
succeeding with MessageId mid-123, sendEmail resolves with no value
(the function is typed Promise of void), so it does not return the
transport message identifier to its caller. -/
theorem sendEmail_void_counterexample :
    (sendEmail sendEnvCleanEx "ok@example.com" "Hello" "<p>hi</p>"
        "hi").result = .ok none ∧
    (sendEmail sendEnvCleanEx "ok@example.com" "Hello" "<p>hi</p>"
        "hi").result ≠ .ok (some "mid-123") := by
  constructor <;> decide

/-- C8 amended: for every clean recipient whose transport call succeeds,
sendEmail resolves successfully with no value, the transport is invoked
exactly once for that recipient, and the transport message identifier is
recorded in the log rather than returned. -/
theorem sendEmail_clean_success (senv : SendEnv)
    (a subject html text mid : String)
    (h1 : (checkEmailBounce senv.env a).result = .ok false)
    (h2 : senv.transport = .ok mid) :
    (sendEmail senv a subject html text).result = .ok none ∧
    List.map SESMessage.toAddress
      (sendEmail senv a subject html text).transportCalls = [a] ∧
    (sendEmail senv a subject html text).logs
      = ["Message sent: " ++ mid] := by
  simp [sendEmail, h1, h2]

/-- Witness for the amended C8 at a concrete clean address. -/
theorem sendEmail_clean_success_witness :
    (checkEmailBounce sendEnvCleanEx.env "ok@example.com").result
      = .ok false ∧
    sendEnvCleanEx.transport = .ok "mid-123" ∧
    ((sendEmail sendEnvCleanEx "ok@example.com" "Hello" "<p>hi</p>"
        "hi").result = .ok none ∧
    List.map SESMessage.toAddress
      (sendEmail sendEnvCleanEx "ok@example.com" "Hello" "<p>hi</p>"
        "hi").transportCalls = ["ok@example.com"] ∧
    (sendEmail sendEnvCleanEx "ok@example.com" "Hello" "<p>hi</p>"
        "hi").logs = ["Message sent: " ++ "mid-123"]) :=
  ⟨by decide, rfl,
   sendEmail_clean_success sendEnvCleanEx "ok@example.com" "Hello"
     "<p>hi</p>" "hi" "mid-123" (by decide) rfl⟩

/-- C9: when the lookup call errors, checkEmailBounce has issued only the
lookup call, no update, and the table contents are unchanged. -/
theorem checkEmailBounce_lookup_error_no_update (env : Env) (a t : String)
    (h1 : env.bounceTableName = some t) (h2 : t ≠ "")
    (h3 : env.storeAvailable = false) :
    (checkEmailBounce env a).calls = [.getItem t a BOUNCE_CATEGORY] ∧
    (checkEmailBounce env a).store = env.store := by
  rw [checkEmailBounce_eq_down env a t h1 h2 h3]
  exact ⟨rfl, rfl⟩

/-- Witness for C9 over the unreachable-store environment. -/
theorem checkEmailBounce_lookup_error_no_update_witness :
    envDownEx.bounceTableName = some "bounce-table" ∧
    "bounce-table" ≠ "" ∧
    envDownEx.storeAvailable = false ∧
    ((checkEmailBounce envDownEx "bad@example.com").calls
      = [.getItem "bounce-table" "bad@example.com" BOUNCE_CATEGORY] ∧
    (checkEmailBounce envDownEx "bad@example.com").store
      = envDownEx.store) :=
  ⟨rfl, by decide, rfl,
   checkEmailBounce_lookup_error_no_update envDownEx "bad@example.com"
     "bounce-table" rfl (by decide) rfl⟩

end EmailService
